import Mathlib

/-!
Shallow embedding of the `galaxy` repository fragment:
* `src/client/galaxy/scripts/mvc/history/hdca-li-edit.js` — the
  `HDCAListItemEdit` Backbone view (foldout panel selection, delete button,
  primary actions, `toString`);
* `src/client/karma.config.js` — the karma test-runner configuration
  (single-pack vs separate-packs file lists).

JavaScript strings are Lean `String`s, thrown `TypeError`s become the
`Except TypeError _` error channel, and the Backbone model is a structure
holding the two attributes the view reads (`collection_type`, `deleted`)
plus a bag of remaining attributes.
-/

namespace Galaxy

/-- A thrown JavaScript `TypeError`, carrying its message. -/
structure TypeError where
  message : String
  deriving Repr, DecidableEq

/-- The client-side Backbone model of a HistoryDatasetCollectionAssociation,
restricted to the attributes this view reads: `collection_type` (a string)
and `deleted` (a boolean).  `otherAttrs` stands for every remaining model
attribute, which the view never consults. -/
structure Model where
  collection_type : String
  deleted : Bool
  otherAttrs : List (String × String)
  deriving Repr, DecidableEq

/-- The four editable collection-panel classes exported by
`mvc/collection/collection-view-edit` (`DC_VIEW_EDIT`). -/
inductive PanelClass where
  | ListCollectionViewEdit
  | PairCollectionViewEdit
  | ListOfPairsCollectionViewEdit
  | ListOfListsCollectionViewEdit
  deriving Repr, DecidableEq

/-- Method `HDCAListItemEdit._getFoldoutPanelClass`: switch on the model
attribute `collection_type`, returning the matching editable panel class, and throw a
`TypeError` for any unrecognized value
(src/client/galaxy/scripts/mvc/history/hdca-li-edit.js, lines 16-29). -/
def getFoldoutPanelClass (m : Model) : Except TypeError PanelClass :=
  let collectionType := m.collection_type
  match collectionType with
  | "list" => .ok .ListCollectionViewEdit
  | "paired" => .ok .PairCollectionViewEdit
  | "list:paired" => .ok .ListOfPairsCollectionViewEdit
  | "list:list" => .ok .ListOfListsCollectionViewEdit
  | _ => .error ⟨"Unknown collection_type: " ++ collectionType⟩

/-- Stateful rendering of `_getFoldoutPanelClass`: the method body as a
computation over the model state of the view, where `Model.get`-style attribute
reads are state reads.  Used to express that the method leaves the model
untouched. -/
def getFoldoutPanelClassS : StateM Model (Except TypeError PanelClass) := do
  let m ← get
  let collectionType := m.collection_type
  match collectionType with
  | "list" => pure (.ok .ListCollectionViewEdit)
  | "paired" => pure (.ok .PairCollectionViewEdit)
  | "list:paired" => pure (.ok .ListOfPairsCollectionViewEdit)
  | "list:list" => pure (.ok .ListOfListsCollectionViewEdit)
  | _ => pure (.error ⟨"Unknown collection_type: " ++ collectionType⟩)

/-- The four `collection_type` values the view recognizes. -/
def knownCollectionTypes : List String :=
  ["list", "paired", "list:paired", "list:list"]

/-- Function `_l` from `utils/localization`.  Modelled from the spec: the
localization module is not part of the visible sources; with no translation
catalog it returns its argument unchanged, which is the behavior the button
titles quoted in the spec assume. -/
def localize (s : String) : String := s

/-- The icon-button description `faIconButton` is called with in
`_renderDeleteButton` (the `onclick` closure is DOM/event plumbing and is
not part of the rendered description). -/
structure IconButton where
  title : String
  classes : String
  faIcon : String
  disabled : Bool
  deriving Repr, DecidableEq

/-- Method `HDCAListItemEdit._renderDeleteButton`
(src/client/galaxy/scripts/mvc/history/hdca-li-edit.js, lines 40-53). -/
def renderDeleteButton (m : Model) : IconButton :=
  let deleted := m.deleted
  { title := if deleted then localize "Dataset collection is already deleted"
             else localize "Delete"
    classes := "delete-btn"
    faIcon := "fa-times"
    disabled := deleted }

/-- Method `HDCAListItemEdit._renderPrimaryActions`
(src/client/galaxy/scripts/mvc/history/hdca-li-edit.js, lines 33-37):
the primary actions of the base class (`_super.prototype._renderPrimaryActions`,
whose result we take as an argument since `hdca-li.js` is outside the
visible sources) concatenated with the delete button.  Actions are rendered
as `IconButton`s (`Sum.inl` tags buttons produced by the base class so base
actions and the delete button of this view live in one list type). -/
def renderPrimaryActions (baseActions : List (IconButton ⊕ IconButton))
    (m : Model) : List (IconButton ⊕ IconButton) :=
  baseActions ++ [Sum.inr (renderDeleteButton m)]

/-- The `HDCAListItemEdit` view as seen by `toString`: a Backbone view may
lack a model (`this.model` is falsy), hence `Option Model`. -/
structure View where
  model : Option Model
  deriving Repr, DecidableEq

/-- Method `HDCAListItemEdit.toString`
(src/client/galaxy/scripts/mvc/history/hdca-li-edit.js, lines 57-60).
Here `modelRepr` stands for the own `toString` of the model (defined in `hdca-li.js`
/ the model class, outside the visible sources). -/
def viewToString (modelRepr : Model → String) (v : View) : String :=
  let modelString := match v.model with
    | some m => modelRepr m
    | none => "(no model)"
  "HDCAListItemEdit(" ++ modelString ++ ")"

end Galaxy

namespace Karma

/-- One entry of a karma `files` list: either a `{pattern, watched}` object
or a bare pattern string. -/
inductive FileEntry where
  | obj (pattern : String) (watched : Bool)
  | str (pattern : String)
  deriving Repr, DecidableEq

/-- The pattern string of a `files` entry. -/
def FileEntry.patternOf : FileEntry → String
  | .obj p _ => p
  | .str p => p

/-- The `watched` flag of a `files` entry (karma defaults bare strings to
watched). -/
def FileEntry.watchedOf : FileEntry → Bool
  | .obj _ w => w
  | .str _ => true

/-- A JavaScript value as read from `process.env`: `none` when the
variable is unset, otherwise its string value. -/
def EnvVar := Option String

/-- JavaScript truthiness of an environment variable: an unset variable is
`undefined` (falsy) and a set one is a string, falsy exactly when empty. -/
def truthy : Option String → Bool
  | none => false
  | some s => !(s == "")

/-- Function `single_pack_mode` (src/client/karma.config.js, lines 13-15):
`process.env.GALAXY_TEST_AS_SINGLE_PACK || false`, reduced to its
truthiness (the config only uses it as a condition). -/
def single_pack_mode (galaxyTestAsSinglePack : Option String) : Bool :=
  truthy galaxyTestAsSinglePack

/-- Array `TESTS_SEPARATE_PACKS` (src/client/karma.config.js, lines 17-41).
The commented-out entries (`ui_tests.js`, `modal_tests.js`,
`upload_dialog_tests.js`, `form_tests.js`, `masthead_tests.js`) are not
part of the array. -/
def TESTS_SEPARATE_PACKS : List FileEntry :=
  [ .obj "galaxy/scripts/qunit/tests/list-of-pairs-collection-creator.js" false
  , .obj "galaxy/scripts/qunit/tests/galaxy-app-base.js" false
  , .obj "galaxy/scripts/qunit/tests/graph.js" false
  , .obj "galaxy/scripts/qunit/tests/hda-base.js" false
  , .obj "galaxy/scripts/qunit/tests/history_contents_model_tests.js" false
  , .obj "galaxy/scripts/qunit/tests/job-dag.js" false
  , .obj "galaxy/scripts/qunit/tests/metrics-logger.js" false
  , .obj "galaxy/scripts/qunit/tests/popover_tests.js" false
  , .obj "galaxy/scripts/qunit/tests/utils_test.js" false
  , .obj "galaxy/scripts/qunit/tests/page_tests.js" false
  , .obj "galaxy/scripts/qunit/tests/workflow_editor_tests.js" false ]

/-- Array `TESTS_AS_SINGLE_PACK` (src/client/karma.config.js, lines 43-45). -/
def TESTS_AS_SINGLE_PACK : List FileEntry :=
  [ .obj "galaxy/scripts/qunit/test.js" false ]

/-- The CSS asset entry appended to either test list. -/
def cssAssets : FileEntry := .str "galaxy/scripts/qunit/assets/*.css"

/-- The `files` option passed to `config.set`
(src/client/karma.config.js, lines 48-55), as a function of the
`GALAXY_TEST_AS_SINGLE_PACK` environment variable. -/
def configFiles (galaxyTestAsSinglePack : Option String) : List FileEntry :=
  (if single_pack_mode galaxyTestAsSinglePack then TESTS_AS_SINGLE_PACK
   else TESTS_SEPARATE_PACKS) ++ [cssAssets]

end Karma

--==============================================================================
-- Theorems

namespace Galaxy

/-- C1: for every model whose `collection_type` is one of the four known
values, `_getFoldoutPanelClass` returns the corresponding editable panel
class: "list" gives `ListCollectionViewEdit`, "paired" gives
`PairCollectionViewEdit`, "list:paired" gives
`ListOfPairsCollectionViewEdit`, and "list:list" gives
`ListOfListsCollectionViewEdit`. -/
theorem getFoldoutPanelClass_known (m : Model) :
    (m.collection_type = "list" →
      getFoldoutPanelClass m = .ok .ListCollectionViewEdit) ∧
    (m.collection_type = "paired" →
      getFoldoutPanelClass m = .ok .PairCollectionViewEdit) ∧
    (m.collection_type = "list:paired" →
      getFoldoutPanelClass m = .ok .ListOfPairsCollectionViewEdit) ∧
    (m.collection_type = "list:list" →
      getFoldoutPanelClass m = .ok .ListOfListsCollectionViewEdit) := by
  refine ⟨?_, ?_, ?_, ?_⟩ <;> intro h <;> unfold getFoldoutPanelClass <;>
    rw [h] <;> rfl

/-- Witness for C1: the four known collection types, on concrete models
with varying other attributes, each map to their panel class. -/
theorem getFoldoutPanelClass_known_witness :
    getFoldoutPanelClass ⟨"list", false, []⟩ = .ok .ListCollectionViewEdit ∧
    getFoldoutPanelClass ⟨"paired", true, []⟩ = .ok .PairCollectionViewEdit ∧
    getFoldoutPanelClass ⟨"list:paired", false, [("hid", "3")]⟩ =
      .ok .ListOfPairsCollectionViewEdit ∧
    getFoldoutPanelClass ⟨"list:list", true, [("hid", "4")]⟩ =
      .ok .ListOfListsCollectionViewEdit :=
  ⟨(getFoldoutPanelClass_known _).1 rfl,
   (getFoldoutPanelClass_known _).2.1 rfl,
   (getFoldoutPanelClass_known _).2.2.1 rfl,
   (getFoldoutPanelClass_known _).2.2.2 rfl⟩

/-- C2: `_getFoldoutPanelClass` throws exactly when the `collection_type`
of the model is not one of the four known values, and what it throws is the
`TypeError` with message "Unknown collection_type: " followed by the value;
on the four known values it does not throw. -/
theorem getFoldoutPanelClass_throws_iff (m : Model) :
    ((getFoldoutPanelClass m).isOk = false ↔
      m.collection_type ∉ knownCollectionTypes) ∧
    (m.collection_type ∉ knownCollectionTypes →
      getFoldoutPanelClass m =
        .error ⟨"Unknown collection_type: " ++ m.collection_type⟩) := by
  unfold getFoldoutPanelClass knownCollectionTypes
  constructor
  · simp only []
    split <;> simp_all [Except.isOk, Except.toBool]
  · intro hnot
    simp only []
    split <;> simp_all

/-- Witness for C2: the concrete unknown value "list:list:list" is outside
the known set and makes `_getFoldoutPanelClass` throw the `TypeError`. -/
theorem getFoldoutPanelClass_throws_iff_witness :
    getFoldoutPanelClass ⟨"list:list:list", false, []⟩ =
      .error ⟨"Unknown collection_type: list:list:list"⟩ :=
  (getFoldoutPanelClass_throws_iff ⟨"list:list:list", false, []⟩).2 (by decide)

/-- C3: the outcome of `_getFoldoutPanelClass` depends only on the
`collection_type` attribute: two models agreeing on it get the same outcome
(same panel class or the same thrown error), whatever their `deleted` flag
and other attributes are. -/
theorem getFoldoutPanelClass_depends_only_on_collection_type
    (m₁ m₂ : Model) (h : m₁.collection_type = m₂.collection_type) :
    getFoldoutPanelClass m₁ = getFoldoutPanelClass m₂ := by
  unfold getFoldoutPanelClass
  rw [h]

/-- Witness for C3: two models sharing `collection_type` "paired" but
differing in `deleted` and in other attributes get the same outcome. -/
theorem getFoldoutPanelClass_depends_only_on_collection_type_witness :
    getFoldoutPanelClass ⟨"paired", true, [("hid", "7")]⟩ =
      getFoldoutPanelClass ⟨"paired", false, []⟩ :=
  getFoldoutPanelClass_depends_only_on_collection_type
    ⟨"paired", true, [("hid", "7")]⟩ ⟨"paired", false, []⟩ rfl

/-- C5: `_renderPrimaryActions` returns exactly the list the base class
produced with the delete button appended as one final element; the base
actions are preserved unchanged, in order, as the prefix of the result. -/
theorem renderPrimaryActions_appends_delete
    (baseActions : List (IconButton ⊕ IconButton)) (m : Model) :
    renderPrimaryActions baseActions m =
      baseActions ++ [Sum.inr (renderDeleteButton m)] ∧
    (renderPrimaryActions baseActions m).take baseActions.length =
      baseActions ∧
    (renderPrimaryActions baseActions m).getLast? =
      some (Sum.inr (renderDeleteButton m)) := by
  refine ⟨rfl, ?_, ?_⟩
  · exact List.take_left baseActions [Sum.inr (renderDeleteButton m)]
  · simp [renderPrimaryActions]

/-- C7: the delete button is disabled exactly when the model is deleted,
its title is "Dataset collection is already deleted" for a deleted model
and "Delete" otherwise, and it always carries the "delete-btn" class and
the "fa-times" icon. -/
theorem renderDeleteButton_spec (m : Model) :
    (renderDeleteButton m).disabled = m.deleted ∧
    (renderDeleteButton m).title =
      (if m.deleted then "Dataset collection is already deleted"
       else "Delete") ∧
    (renderDeleteButton m).classes = "delete-btn" ∧
    (renderDeleteButton m).faIcon = "fa-times" := by
  cases h : m.deleted <;> simp [renderDeleteButton, localize, h]

/-- C8: `toString` is total over every view state: it wraps the string
representation of the model in "HDCAListItemEdit(...)" when a model is
present and yields "HDCAListItemEdit((no model))" when it is absent,
whatever the model representation function is. -/
theorem viewToString_total (modelRepr : Galaxy.Model → String) :
    (∀ m : Model, viewToString modelRepr ⟨some m⟩ =
      "HDCAListItemEdit(" ++ modelRepr m ++ ")") ∧
    viewToString modelRepr ⟨none⟩ = "HDCAListItemEdit((no model))" :=
  ⟨fun _ => rfl, rfl⟩

/-- C9: `_getFoldoutPanelClass` is read-only: run as a computation over the
model state, it leaves the model (all attributes included) unchanged, and
its value agrees with the pure rendering of the method. -/
theorem getFoldoutPanelClassS_readonly (m : Model) :
    (getFoldoutPanelClassS.run m).2 = m ∧
    (getFoldoutPanelClassS.run m).1 = getFoldoutPanelClass m := by
  have hrun : getFoldoutPanelClassS.run m = (getFoldoutPanelClass m, m) := by
    unfold getFoldoutPanelClassS getFoldoutPanelClass
    simp only [StateT.run, bind, StateT.bind, get, getThe, MonadStateOf.get,
      StateT.get, pure, StateT.pure, Id.run]
    split <;> first
      | rfl
      | (rename_i heq; rw [heq]; rfl)
  exact ⟨by rw [hrun], by rw [hrun]⟩

end Galaxy

namespace Karma

/-- C4: the karma `files` list is selected by `GALAXY_TEST_AS_SINGLE_PACK`:
truthy gives the single-pack list (whose only pattern is
galaxy/scripts/qunit/test.js) followed by the CSS asset entry, unset or
falsy gives the separate-packs list followed by the same CSS asset entry. -/
theorem configFiles_selected_by_env (env : Option String) :
    (truthy env = true →
      configFiles env = TESTS_AS_SINGLE_PACK ++ [cssAssets]) ∧
    (truthy env = false →
      configFiles env = TESTS_SEPARATE_PACKS ++ [cssAssets]) ∧
    truthy none = false ∧
    TESTS_AS_SINGLE_PACK.map FileEntry.patternOf =
      ["galaxy/scripts/qunit/test.js"] ∧
    cssAssets.patternOf = "galaxy/scripts/qunit/assets/*.css" := by
  refine ⟨?_, ?_, rfl, rfl, rfl⟩ <;> intro h <;>
    simp [configFiles, single_pack_mode, h]

/-- Witness for C4: with the variable set to "1" the files are the
single-pack list plus CSS; with it unset they are the separate-packs list
plus CSS. -/
theorem configFiles_selected_by_env_witness :
    truthy (some "1") = true ∧
    configFiles (some "1") = TESTS_AS_SINGLE_PACK ++ [cssAssets] ∧
    truthy none = false ∧
    configFiles none = TESTS_SEPARATE_PACKS ++ [cssAssets] :=
  ⟨rfl, (configFiles_selected_by_env (some "1")).1 rfl, rfl,
   (configFiles_selected_by_env none).2.1 rfl⟩

/-- C6: the separate-packs list holds exactly the eleven active test file
patterns, in order, every one with `watched` set to false, and holds none
of the five commented-out test files. -/
theorem separate_packs_contents :
    TESTS_SEPARATE_PACKS.map FileEntry.patternOf =
      [ "galaxy/scripts/qunit/tests/list-of-pairs-collection-creator.js"
      , "galaxy/scripts/qunit/tests/galaxy-app-base.js"
      , "galaxy/scripts/qunit/tests/graph.js"
      , "galaxy/scripts/qunit/tests/hda-base.js"
      , "galaxy/scripts/qunit/tests/history_contents_model_tests.js"
      , "galaxy/scripts/qunit/tests/job-dag.js"
      , "galaxy/scripts/qunit/tests/metrics-logger.js"
      , "galaxy/scripts/qunit/tests/popover_tests.js"
      , "galaxy/scripts/qunit/tests/utils_test.js"
      , "galaxy/scripts/qunit/tests/page_tests.js"
      , "galaxy/scripts/qunit/tests/workflow_editor_tests.js" ] ∧
    TESTS_SEPARATE_PACKS.all (fun e => e.watchedOf == false) = true ∧
    ([ "galaxy/scripts/qunit/tests/ui_tests.js"
     , "galaxy/scripts/qunit/tests/modal_tests.js"
     , "galaxy/scripts/qunit/tests/upload_dialog_tests.js"
     , "galaxy/scripts/qunit/tests/form_tests.js"
     , "galaxy/scripts/qunit/tests/masthead_tests.js" ]).all
      (fun s => !((TESTS_SEPARATE_PACKS.map FileEntry.patternOf).contains s))
      = true :=
  ⟨rfl, rfl, rfl⟩

end Karma
